import Mathlib

/-!
Shallow embedding of the cart store of `src/app/cartSlice.ts`.

The slice keeps a `CartState` whose `items` field maps a numeric product id
to a cart line item, and exposes three reducers: `addToCart`,
`incrementQuantity` and `decrementQuantity`.  The reducers are pure state
transitions (Redux Toolkit turns the in-place mutations into a pure
reducer), so each is embedded as a function `CartState → payload → CartState`.
JavaScript numbers used as ids and quantities are integer-valued here, so
they are modelled as `Int`; the price is only ever copied, never computed
with, and is modelled as `ℚ`.  The truthiness test `if (state.items[id])`
distinguishes a present entry (an object, truthy) from `undefined` (falsy),
which is exactly the `Option` match below.
-/

/-- Mirrors the `CartItem` interface of `cartSlice.ts`. -/
structure CartItem where
  id : Int
  title : String
  image : String
  price : ℚ
  quantity : Int
deriving DecidableEq

/-- Mirrors the `CartState` interface: `items` is a map from product id to
cart line item (`undefined`, i.e. `none`, for absent ids). -/
@[ext]
structure CartState where
  items : Int → Option CartItem

/-- Mirrors `initialState = { items: {} }`. -/
def initialState : CartState := { items := fun _ => none }

/-- Mirrors the `addToCart` reducer: if `state.items[item.id]` exists its
`quantity` is incremented by 1, otherwise the entry
`{ ...item, quantity: 1 }` is inserted under `item.id`. -/
def addToCart (s : CartState) (item : CartItem) : CartState :=
  match s.items item.id with
  | some e =>
      { items := fun k =>
          if k = item.id then some { e with quantity := e.quantity + 1 }
          else s.items k }
  | none =>
      { items := fun k =>
          if k = item.id then some { item with quantity := 1 }
          else s.items k }

/-- Mirrors the `incrementQuantity` reducer: if `state.items[id]` exists its
`quantity` is incremented by 1, otherwise the state is unchanged. -/
def incrementQuantity (s : CartState) (id : Int) : CartState :=
  match s.items id with
  | some e =>
      { items := fun k =>
          if k = id then some { e with quantity := e.quantity + 1 }
          else s.items k }
  | none => s

/-- Mirrors the `decrementQuantity` reducer: if `state.items[id]` exists its
`quantity` is decremented by 1 and, when the result is `<= 0`, the entry is
deleted; otherwise the state is unchanged. -/
def decrementQuantity (s : CartState) (id : Int) : CartState :=
  match s.items id with
  | some e =>
      if e.quantity - 1 ≤ 0 then
        { items := fun k => if k = id then none else s.items k }
      else
        { items := fun k =>
            if k = id then some { e with quantity := e.quantity - 1 }
            else s.items k }
  | none => s

/-- One dispatched cart action: the three reducers of the slice. -/
inductive CartOp where
  | add (item : CartItem)
  | inc (id : Int)
  | dec (id : Int)

/-- Dispatch a single action against a state. -/
def applyOp (s : CartState) : CartOp → CartState
  | .add item => addToCart s item
  | .inc id => incrementQuantity s id
  | .dec id => decrementQuantity s id

/-- Dispatch a finite sequence of actions in order. -/
def applyOps (s : CartState) (ops : List CartOp) : CartState :=
  ops.foldl applyOp s

/-- The id whose entry an operation touches: `item.id` for `addToCart`,
the payload id for the other two reducers. -/
def CartOp.targetId : CartOp → Int
  | .add item => item.id
  | .inc id => id
  | .dec id => id

/-- Every entry present in the state has a positive quantity. -/
def QuantityPos (s : CartState) : Prop :=
  ∀ k e, s.items k = some e → 1 ≤ e.quantity

/-- Pointwise characterisation of `addToCart`. -/
theorem addToCart_items (s : CartState) (item : CartItem) (k : Int) :
    (addToCart s item).items k =
      if k = item.id then
        some (match s.items item.id with
              | some e => { e with quantity := e.quantity + 1 }
              | none => { item with quantity := 1 })
      else s.items k := by
  unfold addToCart
  cases s.items item.id <;> simp

/-- Pointwise characterisation of `incrementQuantity`. -/
theorem incrementQuantity_items (s : CartState) (id k : Int) :
    (incrementQuantity s id).items k =
      if k = id then
        Option.map (fun e => { e with quantity := e.quantity + 1 }) (s.items id)
      else s.items k := by
  unfold incrementQuantity
  cases h : s.items id with
  | none =>
      by_cases hk : k = id
      · subst hk; simp [h]
      · simp [hk]
  | some e => simp

/-- Pointwise characterisation of `decrementQuantity`. -/
theorem decrementQuantity_items (s : CartState) (id k : Int) :
    (decrementQuantity s id).items k =
      if k = id then
        Option.bind (s.items id) (fun e =>
          if e.quantity - 1 ≤ 0 then none
          else some { e with quantity := e.quantity - 1 })
      else s.items k := by
  unfold decrementQuantity
  cases h : s.items id with
  | none =>
      by_cases hk : k = id
      · subst hk; simp [h]
      · simp [hk]
  | some e =>
      by_cases hq : e.quantity ≤ 1 <;> by_cases hk : k = id <;>
        simp [hk, show e.quantity - 1 ≤ 0 ↔ e.quantity ≤ 1 from by omega, hq]

/-- `addToCart` preserves positivity of all stored quantities. -/
theorem quantityPos_addToCart (s : CartState) (item : CartItem)
    (h : QuantityPos s) : QuantityPos (addToCart s item) := by
  intro k e hk
  rw [addToCart_items] at hk
  by_cases hki : k = item.id
  · rw [if_pos hki] at hk
    cases hm : s.items item.id with
    | some e0 =>
        rw [hm] at hk
        cases hk
        have := h _ _ hm
        simp only
        omega
    | none =>
        rw [hm] at hk
        cases hk
        simp
  · rw [if_neg hki] at hk
    exact h _ _ hk

/-- `incrementQuantity` preserves positivity of all stored quantities. -/
theorem quantityPos_incrementQuantity (s : CartState) (id : Int)
    (h : QuantityPos s) : QuantityPos (incrementQuantity s id) := by
  intro k e hk
  rw [incrementQuantity_items] at hk
  by_cases hki : k = id
  · rw [if_pos hki] at hk
    cases hm : s.items id with
    | some e0 =>
        rw [hm] at hk
        simp only [Option.map_some'] at hk
        cases hk
        have := h _ _ hm
        simp only
        omega
    | none => rw [hm] at hk; cases hk
  · rw [if_neg hki] at hk
    exact h _ _ hk

/-- `decrementQuantity` preserves positivity of all stored quantities. -/
theorem quantityPos_decrementQuantity (s : CartState) (id : Int)
    (h : QuantityPos s) : QuantityPos (decrementQuantity s id) := by
  intro k e hk
  rw [decrementQuantity_items] at hk
  by_cases hki : k = id
  · rw [if_pos hki] at hk
    cases hm : s.items id with
    | some e0 =>
        rw [hm] at hk
        simp only [Option.some_bind] at hk
        by_cases hq : e0.quantity - 1 ≤ 0
        · rw [if_pos hq] at hk; cases hk
        · rw [if_neg hq] at hk
          cases hk
          simp only
          omega
    | none => rw [hm] at hk; cases hk
  · rw [if_neg hki] at hk
    exact h _ _ hk

/-- A single dispatched action preserves positivity of stored quantities. -/
theorem quantityPos_applyOp (s : CartState) (op : CartOp)
    (h : QuantityPos s) : QuantityPos (applyOp s op) := by
  cases op with
  | add item => exact quantityPos_addToCart s item h
  | inc id => exact quantityPos_incrementQuantity s id h
  | dec id => exact quantityPos_decrementQuantity s id h

/-- A finite sequence of actions preserves positivity of stored quantities. -/
theorem quantityPos_applyOps (ops : List CartOp) (s : CartState)
    (h : QuantityPos s) : QuantityPos (applyOps s ops) := by
  induction ops generalizing s with
  | nil => exact h
  | cons op rest ih =>
      have : applyOps s (op :: rest) = applyOps (applyOp s op) rest := rfl
      rw [this]
      exact ih _ (quantityPos_applyOp s op h)

/-- The empty initial state satisfies the positivity invariant. -/
theorem quantityPos_initialState : QuantityPos initialState := by
  intro k e hk
  simp [initialState] at hk

/-- A sample product payload; its `quantity` field (5) is deliberately not 1,
since `addToCart` ignores it. -/
def sampleItem : CartItem :=
  { id := 1, title := "Shirt", image := "u", price := 1999/100, quantity := 5 }

/-- A second payload with the same id as `sampleItem` but different
`title`, `image`, `price` and `quantity`. -/
def sampleItemAlt : CartItem :=
  { id := 1, title := "Hat", image := "v", price := 7, quantity := 3 }

/-- The concrete payload with id 7 used by the round-trip scenario. -/
def item7 : CartItem :=
  { id := 7, title := "Widget", image := "w", price := 5, quantity := 2 }

/-- The stored entry at id 1 after `sampleItem` has been added twice. -/
def shirtEntry2 : CartItem :=
  { id := 1, title := "Shirt", image := "u", price := 1999/100, quantity := 2 }

/-- Claim C1: starting from the initial empty cart state, every state
reachable by a finite sequence of `addToCart`, `incrementQuantity` and
`decrementQuantity` dispatches has `quantity >= 1` for every entry of
`items`; no reachable state holds an entry at zero or negative quantity. -/
theorem cart_C1_quantity_invariant (ops : List CartOp) (k : Int) (e : CartItem)
    (h : (applyOps initialState ops).items k = some e) : 1 ≤ e.quantity :=
  quantityPos_applyOps ops initialState quantityPos_initialState k e h

/-- Witness for C1: after dispatching `addToCart sampleItem` on the initial
state, the entry at id 1 exists and its quantity is positive. -/
theorem cart_C1_quantity_invariant_witness :
    (applyOps initialState [CartOp.add sampleItem]).items 1 =
      some { id := 1, title := "Shirt", image := "u", price := 1999/100, quantity := 1 } ∧
    1 ≤ ({ id := 1, title := "Shirt", image := "u", price := 1999/100,
           quantity := 1 } : CartItem).quantity :=
  ⟨rfl, cart_C1_quantity_invariant [CartOp.add sampleItem] 1
    { id := 1, title := "Shirt", image := "u", price := 1999/100, quantity := 1 } rfl⟩

/-- Claim C2: when `items[item.id]` is absent, `addToCart` inserts exactly
one entry, keyed by `item.id`, with `quantity = 1` and the supplied
`title`, `image` and `price`; the payload's `quantity` field is ignored
(the result has quantity 1 whatever `item.quantity` is), and every other
key is untouched. -/
theorem cart_C2_add_new (s : CartState) (item : CartItem)
    (h : s.items item.id = none) :
    (addToCart s item).items = fun k =>
      if k = item.id then
        some { id := item.id, title := item.title, image := item.image,
               price := item.price, quantity := 1 }
      else s.items k := by
  funext k
  rw [addToCart_items, h]

/-- Witness for C2: adding `sampleItem` (whose payload quantity is 5) to the
empty cart yields the single entry at id 1 with quantity 1. -/
theorem cart_C2_add_new_witness :
    initialState.items sampleItem.id = none ∧
    (addToCart initialState sampleItem).items = (fun k =>
      if k = sampleItem.id then
        some { id := sampleItem.id, title := sampleItem.title,
               image := sampleItem.image, price := sampleItem.price, quantity := 1 }
      else initialState.items k) :=
  ⟨rfl, cart_C2_add_new initialState sampleItem rfl⟩

/-- Claim C3: when `items[item.id]` already holds an entry `e`, `addToCart`
gives that entry quantity `e.quantity + 1` while `title`, `image` and
`price` stay the values frozen at first insertion (those of `e`), whatever
values the payload `item` carries; every other key is untouched. -/
theorem cart_C3_add_existing (s : CartState) (item e : CartItem)
    (h : s.items item.id = some e) :
    (addToCart s item).items = fun k =>
      if k = item.id then
        some { id := e.id, title := e.title, image := e.image,
               price := e.price, quantity := e.quantity + 1 }
      else s.items k := by
  funext k
  rw [addToCart_items, h]

/-- Witness for C3: after `sampleItem` is in the cart, adding
`sampleItemAlt` (same id 1, different title/image/price/quantity) bumps the
quantity to 2 and keeps the original Shirt fields. -/
theorem cart_C3_add_existing_witness :
    (addToCart initialState sampleItem).items sampleItemAlt.id =
      some { id := 1, title := "Shirt", image := "u", price := 1999/100, quantity := 1 } ∧
    (addToCart (addToCart initialState sampleItem) sampleItemAlt).items = (fun k =>
      if k = sampleItemAlt.id then
        some { id := 1, title := "Shirt", image := "u", price := 1999/100, quantity := 1 + 1 }
      else (addToCart initialState sampleItem).items k) :=
  ⟨rfl, cart_C3_add_existing (addToCart initialState sampleItem) sampleItemAlt
    { id := 1, title := "Shirt", image := "u", price := 1999/100, quantity := 1 } rfl⟩

/-- Claim C4: `incrementQuantity` bumps the quantity of an existing entry by
one, keeping its `title`, `image` and `price` (and `id`), and on an absent
id leaves `items` entirely unchanged, creating no entry: the mapped update
below is the identity when `items id` is `none`, and every key other than
`id` is untouched. -/
theorem cart_C4_increment (s : CartState) (id : Int) :
    (incrementQuantity s id).items = fun k =>
      if k = id then
        Option.map (fun e => { e with quantity := e.quantity + 1 }) (s.items id)
      else s.items k := by
  funext k
  rw [incrementQuantity_items]

/-- Claim C5: `decrementQuantity` lowers the quantity of an existing entry
by one and removes the entry when the result is `<= 0`, keeping the other
fields otherwise; on an absent id it leaves `items` unchanged (the bind
below is `none` on `none`), and every key other than `id` is untouched. -/
theorem cart_C5_decrement (s : CartState) (id : Int) :
    (decrementQuantity s id).items = fun k =>
      if k = id then
        Option.bind (s.items id) (fun e =>
          if e.quantity - 1 ≤ 0 then none
          else some { e with quantity := e.quantity - 1 })
      else s.items k := by
  funext k
  rw [decrementQuantity_items]

/-- Repeatedly dispatching `decrementQuantity id` at least as many times as
the stored quantity (with at least one dispatch) empties the slot at `id`;
an already absent slot stays absent. -/
theorem decrement_replicate_none (id : Int) :
    ∀ n : Nat, ∀ s : CartState,
      (s.items id = none ∨
        ∃ e, s.items id = some e ∧ 1 ≤ (n : Int) ∧ e.quantity ≤ (n : Int)) →
      (applyOps s (List.replicate n (CartOp.dec id))).items id = none := by
  intro n
  induction n with
  | zero =>
      intro s h
      rcases h with h | ⟨e, _, h1, _⟩
      · simpa [applyOps] using h
      · omega
  | succ n ih =>
      intro s h
      rw [List.replicate_succ]
      have hstep : applyOps s (CartOp.dec id :: List.replicate n (CartOp.dec id)) =
          applyOps (decrementQuantity s id) (List.replicate n (CartOp.dec id)) := rfl
      rw [hstep]
      apply ih
      rcases h with hnone | ⟨e, he, h1, hq⟩
      · left
        rw [decrementQuantity_items, if_pos rfl, hnone]
        rfl
      · by_cases hrem : e.quantity - 1 ≤ 0
        · left
          rw [decrementQuantity_items, if_pos rfl, he]
          simp only [Option.some_bind, if_pos hrem]
        · right
          refine ⟨{ e with quantity := e.quantity - 1 }, ?_, ?_, ?_⟩
          · rw [decrementQuantity_items, if_pos rfl, he]
            simp only [Option.some_bind, if_neg hrem]
          · omega
          · show e.quantity - 1 ≤ (n : Int)
            omega

/-- Claim C6: if the cart holds an entry for `id` with quantity `q`,
dispatching `decrementQuantity id` exactly `q` times makes `id` absent from
`items` (the hypothesis `1 ≤ e.quantity` is the documented invariant on
stored quantities). -/
theorem cart_C6_decrement_to_absent (s : CartState) (id : Int) (e : CartItem)
    (h : s.items id = some e) (hq : 1 ≤ e.quantity) :
    (applyOps s (List.replicate e.quantity.toNat (CartOp.dec id))).items id = none := by
  apply decrement_replicate_none
  right
  exact ⟨e, h, by omega, by omega⟩

/-- Witness for C6: with id 1 at quantity 2, two decrements leave id 1
absent. -/
theorem cart_C6_decrement_to_absent_witness :
    (addToCart (addToCart initialState sampleItem) sampleItem).items 1 = some shirtEntry2 ∧
    1 ≤ shirtEntry2.quantity ∧
    (applyOps (addToCart (addToCart initialState sampleItem) sampleItem)
      (List.replicate shirtEntry2.quantity.toNat (CartOp.dec 1))).items 1 = none :=
  ⟨rfl, by decide,
    cart_C6_decrement_to_absent (addToCart (addToCart initialState sampleItem) sampleItem) 1
      shirtEntry2 rfl (by decide)⟩

/-- Claim C7: from the empty initial state, the dispatch sequence
`addToCart item7; addToCart item7; decrementQuantity 7; decrementQuantity 7`
(where `item7.id = 7`) leaves the `items` mapping empty. -/
theorem cart_C7_round_trip_empty :
    (applyOps initialState
      [CartOp.add item7, CartOp.add item7, CartOp.dec 7, CartOp.dec 7]).items =
      fun _ => none := by
  funext k
  by_cases hk : k = 7
  · subst hk; rfl
  · have h7 : item7.id = 7 := rfl
    simp [applyOps, applyOp, decrementQuantity_items, addToCart_items, h7, hk,
      initialState]

/-- Claim C8: the three reducers are total on cart states — for every state
and every payload, including malformed ones such as a negative `price` or a
non-positive `quantity` in the `addToCart` payload, each produces a result
state; there is no failing, throwing or error-returning path in the
embedding, mirroring the code. -/
theorem cart_C8_totality (s : CartState) (item : CartItem) (id : Int) :
    (∃ t, addToCart s item = t) ∧ (∃ t, incrementQuantity s id = t) ∧
      (∃ t, decrementQuantity s id = t) :=
  ⟨⟨_, rfl⟩, ⟨_, rfl⟩, ⟨_, rfl⟩⟩

/-- Claim C9: per-id frame property — any key different from the operated
id (`item.id` for `addToCart`, the payload id otherwise) maps to the same
entry (present or absent) before and after the operation. -/
theorem cart_C9_frame (s : CartState) (op : CartOp) (k : Int)
    (h : k ≠ op.targetId) : (applyOp s op).items k = s.items k := by
  cases op with
  | add item =>
      have h2 : k ≠ item.id := h
      simp only [applyOp, addToCart_items, if_neg h2]
  | inc id =>
      have h2 : k ≠ id := h
      simp only [applyOp, incrementQuantity_items, if_neg h2]
  | dec id =>
      have h2 : k ≠ id := h
      simp only [applyOp, decrementQuantity_items, if_neg h2]

/-- Witness for C9: adding `sampleItem` (id 1) does not disturb the slot at
id 2. -/
theorem cart_C9_frame_witness :
    (2 : Int) ≠ (CartOp.add sampleItem).targetId ∧
    (applyOp initialState (CartOp.add sampleItem)).items 2 = initialState.items 2 :=
  ⟨by decide, cart_C9_frame initialState (CartOp.add sampleItem) 2 (by decide)⟩

/-- Claim C10: when `items[item.id]` already exists, `addToCart item`
produces exactly the state `incrementQuantity item.id` produces; the
payload's `title`, `image`, `price` and `quantity` have no effect in this
case (the right-hand side does not mention them). -/
theorem cart_C10_add_existing_eq_increment (s : CartState) (item e : CartItem)
    (h : s.items item.id = some e) :
    addToCart s item = incrementQuantity s item.id := by
  apply CartState.ext
  funext k
  rw [addToCart_items, incrementQuantity_items, h]
  simp

/-- Witness for C10: with id 1 already in the cart, adding `sampleItemAlt`
(id 1, different fields) equals incrementing id 1. -/
theorem cart_C10_add_existing_eq_increment_witness :
    (addToCart initialState sampleItem).items sampleItemAlt.id =
      some { id := 1, title := "Shirt", image := "u", price := 1999/100, quantity := 1 } ∧
    addToCart (addToCart initialState sampleItem) sampleItemAlt =
      incrementQuantity (addToCart initialState sampleItem) sampleItemAlt.id :=
  ⟨rfl, cart_C10_add_existing_eq_increment (addToCart initialState sampleItem) sampleItemAlt
    { id := 1, title := "Shirt", image := "u", price := 1999/100, quantity := 1 } rfl⟩
